import Mathlib

/-
Verification of the request-dispatch and response-normalization layer of the
Argument Analyzer repository (src/server/aiService.ts and
src/client/src/lib/api.ts).

The embedding models:
  - JSON values (as produced by the JavaScript JSON.parse builtin);
  - the zod validator aiResponseSchema (src/server/aiService.ts lines 25-35),
    with zod object semantics in its default mode: unknown keys are stripped,
    declared keys are required, z.number().min(1).max(5) accepts any number
    in the closed interval;
  - the JSON.parse builtin as a parser over character lists (ECMA-404 grammar);
  - the Gemini-only JSON isolation step, the greedy regex match from the
    first open brace through the last close brace;
  - the three provider pipelines analyzeWithOpenAI, analyzeWithDeepseek,
    analyzeWithGemini and the dispatcher analyzeArgumentWithAI, with the
    process environment passed explicitly and the provider HTTP reply given
    as a stubbed envelope value; the Bool component of each result records
    whether the outbound network call was reached;
  - the client-side history label computation from analyzeArgument
    (src/client/src/lib/api.ts lines 32-37).
-/

set_option maxRecDepth 8000

namespace ArgAnalyzer

/-- JSON values as produced by JSON.parse. Numbers are modelled as rationals
(JavaScript numbers that JSON.parse yields on the inputs considered here are
decimal literals). An object is a finite list of key-value pairs with unique
keys in insertion order, as built by JSON.parse. -/
inductive Json where
  | null : Json
  | bool (b : Bool) : Json
  | num (q : ℚ) : Json
  | str (s : String) : Json
  | arr (elems : List Json) : Json
  | obj (fields : List (String × Json)) : Json

/-- Property access on a JavaScript object: the value stored under a key,
if present. -/
def lookupField (fields : List (String × Json)) (key : String) : Option Json :=
  match fields with
  | [] => none
  | (k, v) :: rest => if k = key then some v else lookupField rest key

/-- Assignment of a key during object construction in JSON.parse: a repeated
key overwrites the stored value but keeps the original position. -/
def addField (fields : List (String × Json)) (key : String) (val : Json) :
    List (String × Json) :=
  match fields with
  | [] => [(key, val)]
  | (k, v) :: rest =>
    if k = key then (k, val) :: rest else (k, v) :: addField rest key val

/-- The emotions object of the canonical schema: the five scores required by
aiResponseSchema (z.number().min(1).max(5) each). -/
structure Emotions where
  Anger : ℚ
  Sadness : ℚ
  Joy : ℚ
  Fear : ℚ
  Surprise : ℚ
  deriving DecidableEq, Repr

/-- The canonical AnalysisResult shape produced by aiResponseSchema.parse. -/
structure AnalysisResult where
  claim : String
  premises : List String
  emotions : Emotions
  deriving DecidableEq, Repr

/-- Semantics of z.number().min(1).max(5): the value must be a JSON number
in the closed interval from 1 to 5. -/
def scoreOk (v : Json) : Option ℚ :=
  match v with
  | Json.num q => if 1 ≤ q ∧ q ≤ 5 then some q else none
  | _ => none

/-- Reading one required score field of the emotions object. A missing key is
a validation failure (zod fields are required by default). -/
def getScore (efs : List (String × Json)) (key : String) : Option ℚ :=
  match lookupField efs key with
  | some v => scoreOk v
  | none => none

/-- Semantics of the nested z.object for emotions: the input must be an
object, each of the five declared keys must hold a number in the interval
from 1 to 5, and unknown keys are stripped (zod default mode, no strict). -/
def parseEmotions (j : Json) : Option Emotions :=
  match j with
  | Json.obj efs =>
    match getScore efs ("Anger") with
    | none => none
    | some a =>
      match getScore efs ("Sadness") with
      | none => none
      | some s =>
        match getScore efs ("Joy") with
        | none => none
        | some jy =>
          match getScore efs ("Fear") with
          | none => none
          | some f =>
            match getScore efs ("Surprise") with
            | none => none
            | some su =>
              some { Anger := a, Sadness := s, Joy := jy, Fear := f, Surprise := su }
  | _ => none

/-- Semantics of z.string(). -/
def asString (j : Json) : Option String :=
  match j with
  | Json.str s => some s
  | _ => none

/-- Semantics of z.array(z.string()) on the element list. -/
def asStringList (elems : List Json) : Option (List String) :=
  match elems with
  | [] => some []
  | e :: rest =>
    match asString e, asStringList rest with
    | some s, some ss => some (s :: ss)
    | _, _ => none

/-- Semantics of z.array(z.string()): the value must be an array whose
elements are all strings. -/
def asPremises (j : Json) : Option (List String) :=
  match j with
  | Json.arr elems => asStringList elems
  | _ => none

/-- Semantics of aiResponseSchema.parse (src/server/aiService.ts lines 25-35):
the input must be an object with a string claim, an array-of-strings premises
and a valid emotions object; unknown top-level keys are stripped (zod default
mode). Success yields the canonical AnalysisResult, failure is the ZodError
case. -/
def zodParse (j : Json) : Option AnalysisResult :=
  match j with
  | Json.obj fields =>
    match (lookupField fields ("claim")).bind asString with
    | none => none
    | some c =>
      match (lookupField fields ("premises")).bind asPremises with
      | none => none
      | some ps =>
        match (lookupField fields ("emotions")).bind parseEmotions with
        | none => none
        | some es => some { claim := c, premises := ps, emotions := es }
  | _ => none

/-- All five scores of an Emotions record lie in the closed interval
from 1 to 5. -/
def emotionsInRange (e : Emotions) : Prop :=
  (1 ≤ e.Anger ∧ e.Anger ≤ 5) ∧ (1 ≤ e.Sadness ∧ e.Sadness ≤ 5) ∧
  (1 ≤ e.Joy ∧ e.Joy ≤ 5) ∧ (1 ≤ e.Fear ∧ e.Fear ≤ 5) ∧
  (1 ≤ e.Surprise ∧ e.Surprise ≤ 5)

instance (e : Emotions) : Decidable (emotionsInRange e) := by
  unfold emotionsInRange; infer_instance

/-- The five emotion keys declared by aiResponseSchema. -/
def fiveEmotions : List String :=
  [("Anger"), ("Sadness"), ("Joy"), ("Fear"), ("Surprise")]

/-- The open-brace character, written by code point. -/
def lbrace : Char := Char.ofNat 123

/-- The close-brace character, written by code point. -/
def rbrace : Char := Char.ofNat 125

/-- JSON insignificant whitespace: space, tab, line feed, carriage return. -/
def jsonWs (c : Char) : Bool :=
  c = ' ' || c = '\t' || c = '\n' || c = '\r'

/-- Drop leading JSON whitespace. -/
def skipWs (cs : List Char) : List Char :=
  match cs with
  | [] => []
  | c :: rest => if jsonWs c then skipWs rest else c :: rest

/-- Decimal digit test. -/
def isDigitChar (c : Char) : Bool :=
  ('0' ≤ c) && (c ≤ '9')

/-- Value of a decimal digit character. -/
def digitVal (c : Char) : Nat :=
  c.toNat - ('0').toNat

/-- Split off the maximal run of leading decimal digits. -/
def takeDigits (cs : List Char) : List Nat × List Char :=
  match cs with
  | [] => ([], [])
  | c :: rest =>
    if isDigitChar c then
      let (ds, rem) := takeDigits rest
      (digitVal c :: ds, rem)
    else ([], c :: rest)

/-- Natural number denoted by a digit list, most significant first. -/
def natOfDigits (ds : List Nat) : Nat :=
  ds.foldl (fun acc d => 10 * acc + d) 0

/-- Rational value of a JSON number literal from its parts: sign, integer
digits, fraction digits, exponent sign and exponent digits. The value is
mantissa times ten to the signed exponent, negated when the minus sign is
present. -/
def ratFromParts (neg : Bool) (intDs fracDs : List Nat) (expNeg : Bool)
    (expDs : List Nat) : ℚ :=
  let mantissa : Nat := natOfDigits (intDs ++ fracDs)
  let e : Nat := natOfDigits expDs
  let num : Nat := if expNeg then mantissa else mantissa * 10 ^ e
  let den : Nat := if expNeg then 10 ^ (fracDs.length + e) else 10 ^ fracDs.length
  mkRat (if neg then Int.negOfNat num else Int.ofNat num) den

/-- Integer part of a JSON number: a single zero, or a nonzero digit followed
by further digits (leading zeros are a syntax error in JSON). -/
def parseIntPart (cs : List Char) : Option (List Nat × List Char) :=
  match cs with
  | [] => none
  | c :: rest =>
    if c = '0' then some ([0], rest)
    else if isDigitChar c then
      let (ds, rem) := takeDigits rest
      some (digitVal c :: ds, rem)
    else none

/-- Optional fraction part of a JSON number: a dot must be followed by at
least one digit. -/
def parseFracPart (cs : List Char) : Option (List Nat × List Char) :=
  match cs with
  | [] => some ([], [])
  | c :: rest =>
    if c = '.' then
      match takeDigits rest with
      | ([], _) => none
      | (ds, rem) => some (ds, rem)
    else some ([], c :: rest)

/-- Optional exponent part of a JSON number: e or E, an optional sign, and at
least one digit. -/
def parseExpPart (cs : List Char) : Option (Bool × List Nat × List Char) :=
  match cs with
  | [] => some (false, [], [])
  | c :: rest =>
    if (c = 'e') || (c = 'E') then
      match rest with
      | [] => none
      | s :: rest2 =>
        if s = '+' then
          match takeDigits rest2 with
          | ([], _) => none
          | (ds, rem) => some (false, ds, rem)
        else if s = '-' then
          match takeDigits rest2 with
          | ([], _) => none
          | (ds, rem) => some (true, ds, rem)
        else
          match takeDigits (s :: rest2) with
          | ([], _) => none
          | (ds, rem) => some (false, ds, rem)
    else some (false, [], c :: rest)

/-- A JSON number literal: optional minus, integer part, optional fraction,
optional exponent. -/
def parseNumber (cs : List Char) : Option (ℚ × List Char) :=
  let signSplit : Bool × List Char :=
    match cs with
    | c :: rest => if c = '-' then (true, rest) else (false, c :: rest)
    | [] => (false, [])
  match parseIntPart signSplit.2 with
  | none => none
  | some (intDs, cs2) =>
    match parseFracPart cs2 with
    | none => none
    | some (fracDs, cs3) =>
      match parseExpPart cs3 with
      | none => none
      | some (expNeg, expDs, cs4) =>
        some (ratFromParts signSplit.1 intDs fracDs expNeg expDs, cs4)

/-- Hexadecimal digit value, for unicode escapes. -/
def hexDigitVal (c : Char) : Option Nat :=
  if ('0' ≤ c) && (c ≤ '9') then some (c.toNat - ('0').toNat)
  else if ('a' ≤ c) && (c ≤ 'f') then some (c.toNat - ('a').toNat + 10)
  else if ('A' ≤ c) && (c ≤ 'F') then some (c.toNat - ('A').toNat + 10)
  else none

/-- Resolve one JSON string escape sequence, the character after the
backslash onward. -/
def resolveEscape (cs : List Char) : Option (Char × List Char) :=
  match cs with
  | [] => none
  | e :: rest =>
    if e = '"' then some ('"', rest)
    else if e = '\\' then some ('\\', rest)
    else if e = '/' then some ('/', rest)
    else if e = 'b' then some (Char.ofNat 8, rest)
    else if e = 'f' then some (Char.ofNat 12, rest)
    else if e = 'n' then some ('\n', rest)
    else if e = 'r' then some ('\r', rest)
    else if e = 't' then some ('\t', rest)
    else if e = 'u' then
      match rest with
      | h1 :: h2 :: h3 :: h4 :: rest2 =>
        match hexDigitVal h1, hexDigitVal h2, hexDigitVal h3, hexDigitVal h4 with
        | some a, some b, some c, some d =>
          some (Char.ofNat (((a * 16 + b) * 16 + c) * 16 + d), rest2)
        | _, _, _, _ => none
      | _ => none
    else none

/-- Body of a JSON string after the opening quote: ordinary characters,
escapes, terminated by a quote; unescaped control characters are a syntax
error. The fuel bounds the recursion by the input length. -/
def parseStringBody (fuel : Nat) (cs : List Char) : Option (List Char × List Char) :=
  match fuel, cs with
  | 0, _ => none
  | _, [] => none
  | fuel + 1, c :: rest =>
    if c = '"' then some ([], rest)
    else if c = '\\' then
      match resolveEscape rest with
      | none => none
      | some (ch, rest2) =>
        match parseStringBody fuel rest2 with
        | none => none
        | some (body, rem) => some (ch :: body, rem)
    else if c.toNat < 32 then none
    else
      match parseStringBody fuel rest with
      | none => none
      | some (body, rem) => some (c :: body, rem)

mutual

/-- One JSON value (ECMA-404), as consumed by JSON.parse: leading whitespace,
then an object, array, string, number, or a true, false or null literal. The
fuel bounds the nesting recursion by the input length. -/
def parseValue (fuel : Nat) (cs : List Char) : Option (Json × List Char) :=
  match fuel with
  | 0 => none
  | fuel + 1 =>
    match skipWs cs with
    | [] => none
    | c :: rest =>
      if c = '"' then
        match parseStringBody (rest.length + 1) rest with
        | none => none
        | some (body, rem) => some (Json.str (String.mk body), rem)
      else if c = lbrace then parseObjectBody fuel rest
      else if c = '[' then parseArrayBody fuel rest
      else if c = 't' then
        match rest with
        | 'r' :: 'u' :: 'e' :: rem => some (Json.bool true, rem)
        | _ => none
      else if c = 'f' then
        match rest with
        | 'a' :: 'l' :: 's' :: 'e' :: rem => some (Json.bool false, rem)
        | _ => none
      else if c = 'n' then
        match rest with
        | 'u' :: 'l' :: 'l' :: rem => some (Json.null, rem)
        | _ => none
      else
        match parseNumber (c :: rest) with
        | none => none
        | some (q, rem) => some (Json.num q, rem)

/-- Array body after the opening bracket: empty array, or a comma-separated
element list. -/
def parseArrayBody (fuel : Nat) (cs : List Char) : Option (Json × List Char) :=
  match fuel with
  | 0 => none
  | fuel + 1 =>
    match skipWs cs with
    | [] => none
    | c :: rest =>
      if c = ']' then some (Json.arr [], rest)
      else parseArrayElems fuel [] (c :: rest)

/-- Comma-separated array elements, ending at the closing bracket. -/
def parseArrayElems (fuel : Nat) (acc : List Json) (cs : List Char) :
    Option (Json × List Char) :=
  match fuel with
  | 0 => none
  | fuel + 1 =>
    match parseValue fuel cs with
    | none => none
    | some (v, rem) =>
      match skipWs rem with
      | [] => none
      | c :: rest =>
        if c = ',' then parseArrayElems fuel (acc ++ [v]) rest
        else if c = ']' then some (Json.arr (acc ++ [v]), rest)
        else none

/-- Object body after the opening brace: empty object, or a comma-separated
member list. -/
def parseObjectBody (fuel : Nat) (cs : List Char) : Option (Json × List Char) :=
  match fuel with
  | 0 => none
  | fuel + 1 =>
    match skipWs cs with
    | [] => none
    | c :: rest =>
      if c = rbrace then some (Json.obj [], rest)
      else parseObjectMembers fuel [] (c :: rest)

/-- Comma-separated object members: a string key, a colon, a value; a
repeated key overwrites via addField, as JSON.parse does. -/
def parseObjectMembers (fuel : Nat) (acc : List (String × Json)) (cs : List Char) :
    Option (Json × List Char) :=
  match fuel with
  | 0 => none
  | fuel + 1 =>
    match skipWs cs with
    | [] => none
    | c :: rest =>
      if c = '"' then
        match parseStringBody (rest.length + 1) rest with
        | none => none
        | some (keyChars, rem1) =>
          match skipWs rem1 with
          | [] => none
          | d :: rest2 =>
            if d = ':' then
              match parseValue fuel rest2 with
              | none => none
              | some (v, rem2) =>
                match skipWs rem2 with
                | [] => none
                | e :: rest3 =>
                  if e = ',' then
                    parseObjectMembers fuel (addField acc (String.mk keyChars) v) rest3
                  else if e = rbrace then
                    some (Json.obj (addField acc (String.mk keyChars) v), rest3)
                  else none
            else none
      else none

end

/-- JSON.parse on a character list: one JSON value, with only whitespace
allowed to remain. -/
def parseJsonChars (cs : List Char) : Option Json :=
  match parseValue (cs.length + 1) cs with
  | none => none
  | some (v, rem) => if skipWs rem = [] then some v else none

/-- JSON.parse on a string. -/
def parseJson (s : String) : Option Json :=
  parseJsonChars s.data

/-- Index of the first occurrence of a character, if any. -/
def firstIdx (c : Char) (cs : List Char) : Option Nat :=
  match cs with
  | [] => none
  | x :: rest => if x = c then some 0 else (firstIdx c rest).map (· + 1)

/-- Index of the last occurrence of a character, if any. -/
def lastIdx (c : Char) (cs : List Char) : Option Nat :=
  (firstIdx c cs.reverse).map (fun i => cs.length - 1 - i)

/-- The greedy regex match from aiService.ts line 210 over the Gemini
completion text: the span from the first open brace through the last close
brace, when an open brace occurs before the last close brace; otherwise no
match. -/
def jsonSpan (cs : List Char) : Option (List Char) :=
  match firstIdx lbrace cs, lastIdx rbrace cs with
  | some i, some j => if i < j then some ((cs.drop i).take (j - i + 1)) else none
  | _, _ => none

/-- The process-wide configuration read by the dispatcher: one optional
credential per provider, as in process.env. -/
structure Env where
  OPENAI_API_KEY : Option String
  DEEPSEEK_API_KEY : Option String
  GEMINI_API_KEY : Option String

/-- JavaScript truthiness of an optional string: an absent value and the
empty string are falsy. -/
def strTruthy (s : Option String) : Bool :=
  match s with
  | none => false
  | some v => !(v == (""))

/-- JavaScript s1 or-else s2 on strings: the left value unless it is falsy. -/
def orElseStr (m : Option String) (alt : String) : String :=
  match m with
  | none => alt
  | some s => if s = ("") then alt else s

/-- Stubbed OpenAI SDK reply envelope: either the SDK call throws (modelled
by apiFailure, rethrown unchanged at aiService.ts line 104), or it yields
response.choices[0].message.content, a string or null. -/
structure OpenAIReply where
  apiFailure : Option String
  content : Option String

/-- Stubbed fetch reply envelope for the DeepSeek and Gemini integrations:
the HTTP ok flag, the error body message and status text used on failure,
and the extracted completion text (choices[0].message.content for DeepSeek,
candidates[0].content.parts[0].text for Gemini), absent when the envelope
lacks it. -/
structure HttpReply where
  ok : Bool
  apiErrorMessage : Option String
  statusText : String
  content : Option String

/-- Validation step of the OpenAI path (aiService.ts line 92 with the
ZodError handler of lines 96-98): aiResponseSchema.parse, with failure
surfaced as the invalid-response-format message. -/
def openaiValidate (j : Json) : Except String AnalysisResult :=
  match zodParse j with
  | some r => Except.ok r
  | none => Except.error ("Invalid response format from OpenAI. Please try again.")

/-- Validation step of the DeepSeek path (aiService.ts line 150 with the
ZodError handler of lines 154-156). -/
def deepseekValidate (j : Json) : Except String AnalysisResult :=
  match zodParse j with
  | some r => Except.ok r
  | none => Except.error ("Invalid response format from DeepSeek. Please try again.")

/-- Validation step of the Gemini path (aiService.ts line 219 with the
ZodError handler of lines 223-225). -/
def geminiValidate (j : Json) : Except String AnalysisResult :=
  match zodParse j with
  | some r => Except.ok r
  | none => Except.error ("Invalid response format from Gemini. Please try again.")

/-- The successful value of a validation outcome, if any. -/
def okOf (x : Except String AnalysisResult) : Option AnalysisResult :=
  match x with
  | Except.ok r => some r
  | Except.error _ => none

/-- analyzeWithOpenAI (aiService.ts lines 63-106): credential check, SDK
call, empty-content check, JSON.parse, schema validation. The Bool records
whether the outbound network call was reached. -/
def analyzeWithOpenAI (env : Env) (reply : OpenAIReply) :
    Except String AnalysisResult × Bool :=
  if strTruthy env.OPENAI_API_KEY = false then
    (Except.error ("OpenAI API key is missing. Please add it to your Replit Secrets."), false)
  else
    match reply.apiFailure with
    | some msg => (Except.error msg, true)
    | none =>
      match reply.content with
      | none => (Except.error ("OpenAI returned an empty response"), true)
      | some content =>
        if content = ("") then
          (Except.error ("OpenAI returned an empty response"), true)
        else
          match parseJson content with
          | none => (Except.error ("Failed to parse JSON response from OpenAI. Please try again."), true)
          | some parsedData => (openaiValidate parsedData, true)

/-- analyzeWithDeepseek (aiService.ts lines 111-164): credential check,
fetch, HTTP status check, empty-content check, JSON.parse, schema
validation. -/
def analyzeWithDeepseek (env : Env) (reply : HttpReply) :
    Except String AnalysisResult × Bool :=
  if strTruthy env.DEEPSEEK_API_KEY = false then
    (Except.error ("DeepSeek API key is missing. Please add it to your Replit Secrets."), false)
  else if reply.ok = false then
    (Except.error (("DeepSeek API error: ") ++ orElseStr reply.apiErrorMessage reply.statusText), true)
  else
    match reply.content with
    | none => (Except.error ("DeepSeek returned an empty response"), true)
    | some content =>
      if content = ("") then
        (Except.error ("DeepSeek returned an empty response"), true)
      else
        match parseJson content with
        | none => (Except.error ("Failed to parse JSON response from DeepSeek. Please try again."), true)
        | some parsedData => (deepseekValidate parsedData, true)

/-- analyzeWithGemini (aiService.ts lines 169-233): credential check, fetch,
HTTP status check, empty-content check, brace-span JSON isolation (line
210), JSON.parse of the span, schema validation. -/
def analyzeWithGemini (env : Env) (reply : HttpReply) :
    Except String AnalysisResult × Bool :=
  if strTruthy env.GEMINI_API_KEY = false then
    (Except.error ("Gemini API key is missing. Please add it to your Replit Secrets."), false)
  else if reply.ok = false then
    (Except.error (("Gemini API error: ") ++ orElseStr reply.apiErrorMessage reply.statusText), true)
  else
    match reply.content with
    | none => (Except.error ("Gemini returned an empty response"), true)
    | some content =>
      if content = ("") then
        (Except.error ("Gemini returned an empty response"), true)
      else
        match jsonSpan content.data with
        | none => (Except.error ("Could not extract JSON from Gemini response"), true)
        | some span =>
          match parseJsonChars span with
          | none => (Except.error ("Failed to parse JSON response from Gemini. Please try again."), true)
          | some parsedData => (geminiValidate parsedData, true)

/-- The three supported providers of analyzeArgumentWithAI. -/
inductive Provider where
  | openai : Provider
  | deepseek : Provider
  | gemini : Provider
  deriving DecidableEq

/-- The stubbed provider replies of one run: what each provider endpoint
would answer if called. -/
structure World where
  openaiReply : OpenAIReply
  deepseekReply : HttpReply
  geminiReply : HttpReply

/-- The credential that a provider path reads from the environment. -/
def keyFor (env : Env) (p : Provider) : Option String :=
  match p with
  | Provider.openai => env.OPENAI_API_KEY
  | Provider.deepseek => env.DEEPSEEK_API_KEY
  | Provider.gemini => env.GEMINI_API_KEY

/-- analyzeArgumentWithAI (aiService.ts lines 44-58): dispatch on the model
selector. The text argument shapes the outbound request only, so it does not
affect the outcome once the reply is fixed. -/
def analyzeArgumentWithAI (env : Env) (w : World) (_text : String)
    (model : Provider) : Except String AnalysisResult × Bool :=
  match model with
  | Provider.openai => analyzeWithOpenAI env w.openaiReply
  | Provider.deepseek => analyzeWithDeepseek env w.deepseekReply
  | Provider.gemini => analyzeWithGemini env w.geminiReply

/-- The history label computed by the client before saveHistoryItem
(src/client/src/lib/api.ts lines 33-35): the openrouter label is the
composite of provider name and chosen variant, every other provider saves
under its own name. -/
def modelToSave (model : String) (openRouterModel : Option String) : String :=
  if model = ("openrouter") ∧ strTruthy openRouterModel = true then
    ("openrouter-") ++ openRouterModel.getD ("")
  else model

/-- Looking a key up past an unrelated leading field. -/
theorem lookupField_cons_ne (k key : String) (v : Json) (fields : List (String × Json))
    (h : k ≠ key) : lookupField ((k, v) :: fields) key = lookupField fields key := by
  simp [lookupField, h]

/-- Reading a score past an unrelated leading field. -/
theorem getScore_cons_ne (k key : String) (v : Json) (efs : List (String × Json))
    (h : k ≠ key) : getScore ((k, v) :: efs) key = getScore efs key := by
  unfold getScore
  rw [lookupField_cons_ne k key v efs h]

/-- A score of zero, six, or non-numeric type fails the score check. -/
theorem scoreOk_eq_none_of_bad (v : Json)
    (h : v = Json.num 0 ∨ v = Json.num 6 ∨ ∀ q : ℚ, v ≠ Json.num q) :
    scoreOk v = none := by
  rcases h with rfl | rfl | h
  · rfl
  · rfl
  · cases v with
    | num q => exact absurd rfl (h q)
    | null => rfl
    | bool b => rfl
    | str s => rfl
    | arr elems => rfl
    | obj fields => rfl

/-- A successful score check yields a value in the closed interval from one
to five. -/
theorem scoreOk_range (v : Json) (q : ℚ) (h : scoreOk v = some q) :
    1 ≤ q ∧ q ≤ 5 := by
  cases v with
  | num q2 =>
    simp only [scoreOk] at h
    by_cases hb : 1 ≤ q2 ∧ q2 ≤ 5
    · rw [if_pos hb] at h
      cases h
      exact hb
    · rw [if_neg hb] at h
      exact Option.noConfusion h
  | null => exact Option.noConfusion h
  | bool b => exact Option.noConfusion h
  | str s => exact Option.noConfusion h
  | arr elems => exact Option.noConfusion h
  | obj fields => exact Option.noConfusion h

/-- A successful required-score read yields a value in the interval. -/
theorem getScore_range (efs : List (String × Json)) (k : String) (q : ℚ)
    (h : getScore efs k = some q) : 1 ≤ q ∧ q ≤ 5 := by
  simp only [getScore] at h
  cases hl : lookupField efs k <;> rw [hl] at h
  · exact Option.noConfusion h
  · exact scoreOk_range _ q h

/-- A stored bad score makes the required-score read fail. -/
theorem getScore_eq_none_of_bad (efs : List (String × Json)) (k : String) (v : Json)
    (hl : lookupField efs k = some v)
    (hv : v = Json.num 0 ∨ v = Json.num 6 ∨ ∀ q : ℚ, v ≠ Json.num q) :
    getScore efs k = none := by
  simp only [getScore, hl]
  exact scoreOk_eq_none_of_bad v hv

/-- If any of the five required score reads fails, the emotions object is
rejected. -/
theorem parseEmotions_eq_none_of_getScore (efs : List (String × Json)) (k : String)
    (hk : k ∈ fiveEmotions) (h : getScore efs k = none) :
    parseEmotions (Json.obj efs) = none := by
  have hk5 : k = ("Anger") ∨ k = ("Sadness") ∨ k = ("Joy") ∨ k = ("Fear") ∨
      k = ("Surprise") := by
    simpa [fiveEmotions] using hk
  unfold parseEmotions
  rcases hk5 with rfl | rfl | rfl | rfl | rfl <;>
    cases hA : getScore efs ("Anger") <;>
    cases hS : getScore efs ("Sadness") <;>
    cases hJ : getScore efs ("Joy") <;>
    cases hF : getScore efs ("Fear") <;>
    cases hSu : getScore efs ("Surprise") <;>
    simp_all

/-- If all five required score reads succeed, the emotions object validates
to exactly those five scores. -/
theorem parseEmotions_eq_some (efs : List (String × Json)) (a s jy f su : ℚ)
    (hA : getScore efs ("Anger") = some a)
    (hS : getScore efs ("Sadness") = some s)
    (hJ : getScore efs ("Joy") = some jy)
    (hF : getScore efs ("Fear") = some f)
    (hSu : getScore efs ("Surprise") = some su) :
    parseEmotions (Json.obj efs) =
      some { Anger := a, Sadness := s, Joy := jy, Fear := f, Surprise := su } := by
  simp only [parseEmotions, hA, hS, hJ, hF, hSu]

/-- Every successfully validated emotions object has all five scores in the
interval. -/
theorem parseEmotions_range (j : Json) (es : Emotions)
    (h : parseEmotions j = some es) : emotionsInRange es := by
  cases j with
  | obj efs =>
    simp only [parseEmotions] at h
    cases hA : getScore efs ("Anger") with
    | none => rw [hA] at h; exact Option.noConfusion h
    | some a =>
      rw [hA] at h
      cases hS : getScore efs ("Sadness") with
      | none => rw [hS] at h; exact Option.noConfusion h
      | some s =>
        rw [hS] at h
        cases hJ : getScore efs ("Joy") with
        | none => rw [hJ] at h; exact Option.noConfusion h
        | some jy =>
          rw [hJ] at h
          cases hF : getScore efs ("Fear") with
          | none => rw [hF] at h; exact Option.noConfusion h
          | some f =>
            rw [hF] at h
            cases hSu : getScore efs ("Surprise") with
            | none => rw [hSu] at h; exact Option.noConfusion h
            | some su =>
              rw [hSu] at h
              have h2 : Emotions.mk a s jy f su = es := Option.some.inj h
              rw [← h2]
              exact ⟨getScore_range _ _ _ hA, getScore_range _ _ _ hS,
                getScore_range _ _ _ hJ, getScore_range _ _ _ hF,
                getScore_range _ _ _ hSu⟩
  | null => exact Option.noConfusion h
  | bool b => exact Option.noConfusion h
  | num q => exact Option.noConfusion h
  | str s => exact Option.noConfusion h
  | arr elems => exact Option.noConfusion h

/-- A rejected emotions field makes the whole object fail validation. -/
theorem zodParse_eq_none_of_emotions (fields : List (String × Json)) (je : Json)
    (h1 : lookupField fields ("emotions") = some je)
    (h2 : parseEmotions je = none) :
    zodParse (Json.obj fields) = none := by
  have he : (lookupField fields ("emotions")).bind parseEmotions = none := by
    rw [h1]
    exact h2
  simp only [zodParse, he]
  cases hc : (lookupField fields ("claim")).bind asString
  · rfl
  · cases hp : (lookupField fields ("premises")).bind asPremises
    · rfl
    · rfl

/-- When all three canonical fields validate, the object validates to the
record built from exactly those three fields. -/
theorem zodParse_eq_some (fields : List (String × Json)) (c : String)
    (ps : List String) (es : Emotions)
    (h1 : (lookupField fields ("claim")).bind asString = some c)
    (h2 : (lookupField fields ("premises")).bind asPremises = some ps)
    (h3 : (lookupField fields ("emotions")).bind parseEmotions = some es) :
    zodParse (Json.obj fields) = some { claim := c, premises := ps, emotions := es } := by
  simp only [zodParse, h1, h2, h3]

/-- An array whose elements are string values converts to the underlying
string list. -/
theorem asStringList_map (ps : List String) :
    asStringList (ps.map Json.str) = some ps := by
  induction ps with
  | nil => rfl
  | cons p rest ih => simp [asStringList, asString, ih]

/-- A benign successful HTTP reply stub with no completion content. -/
def stubHttpOk : HttpReply :=
  { ok := true, apiErrorMessage := none, statusText := ("OK"), content := none }

/-- A stubbed run in which the OpenAI endpoint answers with the bare JSON
text 42. -/
def worldStub : World :=
  { openaiReply := { apiFailure := none, content := some ("42") },
    deepseekReply := stubHttpOk,
    geminiReply := stubHttpOk }

/-- A configuration carrying all three credentials. -/
def envFull : Env :=
  { OPENAI_API_KEY := some ("sk-test"),
    DEEPSEEK_API_KEY := some ("dk-test"),
    GEMINI_API_KEY := some ("gk-test") }

/-- A configuration carrying no credential at all. -/
def envNone : Env :=
  { OPENAI_API_KEY := none, DEEPSEEK_API_KEY := none, GEMINI_API_KEY := none }

/-- A configuration agreeing with envFull on the OpenAI credential only. -/
def envAlt : Env :=
  { OPENAI_API_KEY := some ("sk-test"), DEEPSEEK_API_KEY := none,
    GEMINI_API_KEY := none }

/-- C4: for every provider, an absent credential makes the dispatch fail
before the outbound network call is reached, with the message naming that
provider's credential. -/
theorem c4_missing_credential (env : Env) (w : World) (t : String) :
    (env.OPENAI_API_KEY = none →
      analyzeArgumentWithAI env w t Provider.openai =
        (Except.error ("OpenAI API key is missing. Please add it to your Replit Secrets."), false)) ∧
    (env.DEEPSEEK_API_KEY = none →
      analyzeArgumentWithAI env w t Provider.deepseek =
        (Except.error ("DeepSeek API key is missing. Please add it to your Replit Secrets."), false)) ∧
    (env.GEMINI_API_KEY = none →
      analyzeArgumentWithAI env w t Provider.gemini =
        (Except.error ("Gemini API key is missing. Please add it to your Replit Secrets."), false)) := by
  refine ⟨fun h => ?_, fun h => ?_, fun h => ?_⟩
  · simp [analyzeArgumentWithAI, analyzeWithOpenAI, strTruthy, h]
  · simp [analyzeArgumentWithAI, analyzeWithDeepseek, strTruthy, h]
  · simp [analyzeArgumentWithAI, analyzeWithGemini, strTruthy, h]

/-- Witness for C4 at the empty configuration. -/
theorem c4_missing_credential_witness :
    analyzeArgumentWithAI envNone worldStub ("t") Provider.openai =
      (Except.error ("OpenAI API key is missing. Please add it to your Replit Secrets."), false) ∧
    analyzeArgumentWithAI envNone worldStub ("t") Provider.deepseek =
      (Except.error ("DeepSeek API key is missing. Please add it to your Replit Secrets."), false) ∧
    analyzeArgumentWithAI envNone worldStub ("t") Provider.gemini =
      (Except.error ("Gemini API key is missing. Please add it to your Replit Secrets."), false) :=
  ⟨(c4_missing_credential envNone worldStub ("t")).1 rfl,
   (c4_missing_credential envNone worldStub ("t")).2.1 rfl,
   (c4_missing_credential envNone worldStub ("t")).2.2 rfl⟩

/-- C6: all three provider paths run the identical schema validation on a
parsed JSON value: they accept exactly the same values and, when they
accept, produce the same AnalysisResult. -/
theorem c6_identical_validation (j : Json) :
    okOf (openaiValidate j) = okOf (deepseekValidate j) ∧
    okOf (deepseekValidate j) = okOf (geminiValidate j) := by
  unfold openaiValidate deepseekValidate geminiValidate
  cases zodParse j <;> exact ⟨rfl, rfl⟩

/-- C8: the history label is the composite openrouter label exactly for the
variant-capable provider with a chosen variant, and the bare provider name
for every other provider. -/
theorem c8_history_label :
    (∀ v : String, v ≠ ("") →
      modelToSave ("openrouter") (some v) = ("openrouter-") ++ v) ∧
    (∀ (m : String) (o : Option String), m ≠ ("openrouter") →
      modelToSave m o = m) := by
  constructor
  · intro v hv
    simp [modelToSave, strTruthy, hv]
  · intro m o hm
    simp [modelToSave, hm]

/-- Witness for C8 at a concrete variant and a concrete other provider. -/
theorem c8_history_label_witness :
    modelToSave ("openrouter") (some ("mistral-7b")) = ("openrouter-") ++ ("mistral-7b") ∧
    modelToSave ("gemini") (some ("mistral-7b")) = ("gemini") :=
  ⟨c8_history_label.1 ("mistral-7b") (by decide),
   c8_history_label.2 ("gemini") (some ("mistral-7b")) (by decide)⟩

/-- C9: each provider path reads only its own credential: two configurations
agreeing on the selected provider's credential give identical outcomes for
the same text and the same stubbed replies. -/
theorem c9_credential_isolation (e1 e2 : Env) (w : World) (t : String)
    (p : Provider) (h : keyFor e1 p = keyFor e2 p) :
    analyzeArgumentWithAI e1 w t p = analyzeArgumentWithAI e2 w t p := by
  cases p with
  | openai =>
    simp only [keyFor] at h
    simp only [analyzeArgumentWithAI]
    unfold analyzeWithOpenAI
    rw [h]
  | deepseek =>
    simp only [keyFor] at h
    simp only [analyzeArgumentWithAI]
    unfold analyzeWithDeepseek
    rw [h]
  | gemini =>
    simp only [keyFor] at h
    simp only [analyzeArgumentWithAI]
    unfold analyzeWithGemini
    rw [h]

/-- Witness for C9: two configurations that differ in both other
credentials give the same outcome for the OpenAI path. -/
theorem c9_credential_isolation_witness :
    analyzeArgumentWithAI envFull worldStub ("text") Provider.openai =
      analyzeArgumentWithAI envAlt worldStub ("text") Provider.openai :=
  c9_credential_isolation envFull envAlt worldStub ("text") Provider.openai rfl

/-- C1: the canonical schema rejects any parsed reply whose emotions object
stores zero, six, or a non-numeric value under one of the five emotion keys;
and it accepts any object whose claim is a string, whose premises is an
array of strings, and whose emotions object stores numbers in the closed
interval from one to five under all five keys, producing a result that
carries all five scores, each in the interval. -/
theorem c1_schema_bounds :
    (∀ (fields efs : List (String × Json)) (k : String) (v : Json),
      lookupField fields ("emotions") = some (Json.obj efs) →
      k ∈ fiveEmotions →
      lookupField efs k = some v →
      (v = Json.num 0 ∨ v = Json.num 6 ∨ ∀ q : ℚ, v ≠ Json.num q) →
      zodParse (Json.obj fields) = none) ∧
    (∀ (fields efs : List (String × Json)) (c : String) (ps : List String)
        (a s jy f su : ℚ),
      lookupField fields ("claim") = some (Json.str c) →
      lookupField fields ("premises") = some (Json.arr (ps.map Json.str)) →
      lookupField fields ("emotions") = some (Json.obj efs) →
      lookupField efs ("Anger") = some (Json.num a) → 1 ≤ a ∧ a ≤ 5 →
      lookupField efs ("Sadness") = some (Json.num s) → 1 ≤ s ∧ s ≤ 5 →
      lookupField efs ("Joy") = some (Json.num jy) → 1 ≤ jy ∧ jy ≤ 5 →
      lookupField efs ("Fear") = some (Json.num f) → 1 ≤ f ∧ f ≤ 5 →
      lookupField efs ("Surprise") = some (Json.num su) → 1 ≤ su ∧ su ≤ 5 →
      zodParse (Json.obj fields) =
        some { claim := c, premises := ps,
               emotions := { Anger := a, Sadness := s, Joy := jy, Fear := f,
                             Surprise := su } } ∧
      emotionsInRange { Anger := a, Sadness := s, Joy := jy, Fear := f,
                        Surprise := su }) := by
  constructor
  · intro fields efs k v hemo hk hv hbad
    exact zodParse_eq_none_of_emotions fields (Json.obj efs) hemo
      (parseEmotions_eq_none_of_getScore efs k hk
        (getScore_eq_none_of_bad efs k v hv hbad))
  · intro fields efs c ps a s jy f su hclaim hprem hemo hA hAr hS hSr hJ hJr hF hFr hSu hSur
    have gA : getScore efs ("Anger") = some a := by
      simp only [getScore, hA, scoreOk]
      exact if_pos hAr
    have gS : getScore efs ("Sadness") = some s := by
      simp only [getScore, hS, scoreOk]
      exact if_pos hSr
    have gJ : getScore efs ("Joy") = some jy := by
      simp only [getScore, hJ, scoreOk]
      exact if_pos hJr
    have gF : getScore efs ("Fear") = some f := by
      simp only [getScore, hF, scoreOk]
      exact if_pos hFr
    have gSu : getScore efs ("Surprise") = some su := by
      simp only [getScore, hSu, scoreOk]
      exact if_pos hSur
    refine ⟨zodParse_eq_some fields c ps _ ?_ ?_ ?_, hAr, hSr, hJr, hFr, hSur⟩
    · rw [hclaim]
      rfl
    · rw [hprem]
      exact asStringList_map ps
    · rw [hemo]
      exact parseEmotions_eq_some efs a s jy f su gA gS gJ gF gSu

/-- Witness for C1: a concrete reply with a zero Anger score is rejected,
and a concrete fully valid reply is accepted with all scores in range. -/
theorem c1_schema_bounds_witness :
    zodParse (Json.obj [(("claim"), Json.str ("c")), (("premises"), Json.arr []),
      (("emotions"), Json.obj [(("Anger"), Json.num 0), (("Sadness"), Json.num 1),
        (("Joy"), Json.num 1), (("Fear"), Json.num 1), (("Surprise"), Json.num 1)])]) =
      none ∧
    zodParse (Json.obj [(("claim"), Json.str ("c")),
      (("premises"), Json.arr [Json.str ("p")]),
      (("emotions"), Json.obj [(("Anger"), Json.num 1), (("Sadness"), Json.num 2),
        (("Joy"), Json.num 3), (("Fear"), Json.num 4), (("Surprise"), Json.num 5)])]) =
      some { claim := ("c"), premises := [("p")],
             emotions := { Anger := 1, Sadness := 2, Joy := 3, Fear := 4,
                           Surprise := 5 } } :=
  ⟨c1_schema_bounds.1
     [(("claim"), Json.str ("c")), (("premises"), Json.arr []),
      (("emotions"), Json.obj [(("Anger"), Json.num 0), (("Sadness"), Json.num 1),
        (("Joy"), Json.num 1), (("Fear"), Json.num 1), (("Surprise"), Json.num 1)])]
     [(("Anger"), Json.num 0), (("Sadness"), Json.num 1), (("Joy"), Json.num 1),
      (("Fear"), Json.num 1), (("Surprise"), Json.num 1)]
     ("Anger") (Json.num 0) rfl (by decide) rfl (Or.inl rfl),
   (c1_schema_bounds.2
     [(("claim"), Json.str ("c")), (("premises"), Json.arr [Json.str ("p")]),
      (("emotions"), Json.obj [(("Anger"), Json.num 1), (("Sadness"), Json.num 2),
        (("Joy"), Json.num 3), (("Fear"), Json.num 4), (("Surprise"), Json.num 5)])]
     [(("Anger"), Json.num 1), (("Sadness"), Json.num 2), (("Joy"), Json.num 3),
      (("Fear"), Json.num 4), (("Surprise"), Json.num 5)]
     ("c") [("p")] 1 2 3 4 5 rfl rfl rfl rfl (by decide)
     rfl (by decide) rfl (by decide) rfl (by decide) rfl (by decide)).1⟩

/-- Counterexample to C2 as stated: an emotions object carrying the extra
key Disgust, even with an out-of-range value, does not fail validation; the
extra key is stripped and the call succeeds. -/
theorem c2_extra_keys_counterexample :
    zodParse (Json.obj [(("claim"), Json.str ("c")), (("premises"), Json.arr []),
      (("emotions"), Json.obj [(("Anger"), Json.num 1), (("Sadness"), Json.num 1),
        (("Joy"), Json.num 1), (("Fear"), Json.num 1), (("Surprise"), Json.num 1),
        (("Disgust"), Json.num 9)])]) =
      some { claim := ("c"), premises := [],
             emotions := { Anger := 1, Sadness := 1, Joy := 1, Fear := 1,
                           Surprise := 1 } } := by
  rfl

/-- C2 amended: a key other than the five emotion names stored in the
emotions object is silently ignored by validation: the outcome is exactly
the outcome without that key. -/
theorem c2_extra_emotion_keys_ignored (efs : List (String × Json)) (k : String)
    (v : Json) (hk : k ∉ fiveEmotions) :
    parseEmotions (Json.obj ((k, v) :: efs)) = parseEmotions (Json.obj efs) := by
  have h5 : ¬ k = ("Anger") ∧ ¬ k = ("Sadness") ∧ ¬ k = ("Joy") ∧
      ¬ k = ("Fear") ∧ ¬ k = ("Surprise") := by
    simpa [fiveEmotions] using hk
  simp only [parseEmotions, getScore_cons_ne k ("Anger") v efs h5.1,
    getScore_cons_ne k ("Sadness") v efs h5.2.1,
    getScore_cons_ne k ("Joy") v efs h5.2.2.1,
    getScore_cons_ne k ("Fear") v efs h5.2.2.2.1,
    getScore_cons_ne k ("Surprise") v efs h5.2.2.2.2]

/-- Witness for the amended C2 at a concrete extra key. -/
theorem c2_extra_emotion_keys_ignored_witness :
    parseEmotions (Json.obj ((("Disgust"), Json.num 9) ::
      [(("Anger"), Json.num 1), (("Sadness"), Json.num 1), (("Joy"), Json.num 1),
       (("Fear"), Json.num 1), (("Surprise"), Json.num 1)])) =
    parseEmotions (Json.obj [(("Anger"), Json.num 1), (("Sadness"), Json.num 1),
      (("Joy"), Json.num 1), (("Fear"), Json.num 1), (("Surprise"), Json.num 1)]) :=
  c2_extra_emotion_keys_ignored _ ("Disgust") (Json.num 9) (by decide)

/-- The completion content of a reply whose Anger score is the non-integer
number two point five. -/
def contentFractional : String :=
  "\x7b\"claim\":\"c\",\"premises\":[],\"emotions\":\x7b\"Anger\":2.5,\"Sadness\":1,\"Joy\":1,\"Fear\":1,\"Surprise\":1\x7d\x7d"

/-- Counterexample to C3 as stated: a reply carrying the non-integer score
two point five passes the OpenAI pipeline and yields a successful result
whose Anger score has denominator two. -/
theorem c3_fractional_counterexample :
    analyzeWithOpenAI envFull { apiFailure := none, content := some contentFractional } =
      (Except.ok { claim := ("c"), premises := [],
                   emotions := { Anger := mkRat 5 2, Sadness := 1, Joy := 1,
                                 Fear := 1, Surprise := 1 } }, true) ∧
    (mkRat 5 2).den ≠ 1 := by
  exact ⟨rfl, by decide⟩

/-- C3 amended: every successfully validated result has all five emotion
scores in the closed interval from one to five; integrality is not
enforced. -/
theorem c3_scores_in_range (j : Json) (r : AnalysisResult)
    (h : zodParse j = some r) : emotionsInRange r.emotions := by
  cases j with
  | obj fields =>
    simp only [zodParse] at h
    cases hc : (lookupField fields ("claim")).bind asString with
    | none => rw [hc] at h; exact Option.noConfusion h
    | some c =>
      rw [hc] at h
      cases hp : (lookupField fields ("premises")).bind asPremises with
      | none => rw [hp] at h; exact Option.noConfusion h
      | some ps =>
        rw [hp] at h
        cases he : (lookupField fields ("emotions")).bind parseEmotions with
        | none => rw [he] at h; exact Option.noConfusion h
        | some es =>
          rw [he] at h
          have h2 : AnalysisResult.mk c ps es = r := Option.some.inj h
          rw [← h2]
          rcases Option.bind_eq_some.mp he with ⟨je, hje, hpe⟩
          exact parseEmotions_range je es hpe
  | null => exact Option.noConfusion h
  | bool b => exact Option.noConfusion h
  | num q => exact Option.noConfusion h
  | str s => exact Option.noConfusion h
  | arr elems => exact Option.noConfusion h

/-- Witness for the amended C3 at a concrete validated reply. -/
theorem c3_scores_in_range_witness :
    emotionsInRange { Anger := 1, Sadness := 1, Joy := 1, Fear := 1,
                      Surprise := (1 : ℚ) } :=
  c3_scores_in_range
    (Json.obj [(("claim"), Json.str ("c")), (("premises"), Json.arr []),
      (("emotions"), Json.obj [(("Anger"), Json.num 1), (("Sadness"), Json.num 1),
        (("Joy"), Json.num 1), (("Fear"), Json.num 1), (("Surprise"), Json.num 1)])])
    { claim := ("c"), premises := [],
      emotions := { Anger := 1, Sadness := 1, Joy := 1, Fear := 1, Surprise := 1 } }
    rfl

/-- Counterexample to C5 as stated: the OpenAI path, given a completion with
no brace span, fails with the invalid-response-format error, not with the
could-not-extract-JSON error; only the Gemini path has an extraction step. -/
theorem c5_openai_no_span_counterexample :
    jsonSpan (String.data ("42")) = none ∧
    analyzeWithOpenAI envFull { apiFailure := none, content := some ("42") } =
      (Except.error ("Invalid response format from OpenAI. Please try again."), true) :=
  ⟨rfl, rfl⟩

/-- C5 amended: on the Gemini path alone, a non-empty completion with no
brace span fails with the could-not-extract-JSON error. -/
theorem c5_gemini_extraction_error (env : Env) (r : HttpReply) (c : String)
    (hk : strTruthy env.GEMINI_API_KEY = true) (hok : r.ok = true)
    (hc : r.content = some c) (hne : c ≠ (""))
    (hspan : jsonSpan c.data = none) :
    analyzeWithGemini env r =
      (Except.error ("Could not extract JSON from Gemini response"), true) := by
  simp [analyzeWithGemini, hk, hok, hc, hne, hspan]

/-- Witness for the amended C5 at a concrete brace-free completion. -/
theorem c5_gemini_extraction_error_witness :
    analyzeWithGemini envFull { ok := true, apiErrorMessage := none,
                                statusText := ("OK"),
                                content := some ("no json here") } =
      (Except.error ("Could not extract JSON from Gemini response"), true) :=
  c5_gemini_extraction_error envFull _ ("no json here") rfl rfl rfl (by decide) rfl

/-- The stubbed completion content of the end-to-end scenario. -/
def contentStub : String :=
  "\x7b\"claim\":\"The ocean is blue\",\"premises\":[\"The sky is blue\"],\"emotions\":\x7b\"Anger\":1,\"Sadness\":1,\"Joy\":2,\"Fear\":1,\"Surprise\":1\x7d\x7d"

/-- The JSON value the stubbed completion parses to. -/
def stubParsed : Json :=
  Json.obj [(("claim"), Json.str ("The ocean is blue")),
    (("premises"), Json.arr [Json.str ("The sky is blue")]),
    (("emotions"), Json.obj [(("Anger"), Json.num 1), (("Sadness"), Json.num 1),
      (("Joy"), Json.num 2), (("Fear"), Json.num 1), (("Surprise"), Json.num 1)])]

/-- The AnalysisResult carrying exactly the stub object's content. -/
def stubResult : AnalysisResult :=
  { claim := ("The ocean is blue"), premises := [("The sky is blue")],
    emotions := { Anger := 1, Sadness := 1, Joy := 2, Fear := 1, Surprise := 1 } }

/-- A stubbed run in which the OpenAI endpoint answers with exactly the
scenario stub. -/
def worldC7 : World :=
  { openaiReply := { apiFailure := none, content := some contentStub },
    deepseekReply := stubHttpOk,
    geminiReply := stubHttpOk }

/-- C7: on the end-to-end scenario text with the stubbed OpenAI completion,
the analysis returns the stub object unchanged: the result equals the record
carrying exactly the parsed stub's claim, premises and emotion scores. -/
theorem c7_end_to_end_openai :
    analyzeArgumentWithAI envFull worldC7
      ("The sky is blue. Therefore, the ocean is blue.") Provider.openai =
      (Except.ok stubResult, true) ∧
    parseJson contentStub = some stubParsed ∧
    zodParse stubParsed = some stubResult :=
  ⟨rfl, rfl, rfl⟩

/-- C10: a parsed reply carrying the three valid canonical fields plus an
arbitrary extra top-level property validates successfully, and the result is
built from exactly the three canonical fields, the extra property silently
dropped. -/
theorem c10_extra_top_level (fields : List (String × Json)) (k : String)
    (v : Json) (c : String) (ps : List String) (es : Emotions)
    (hk : k ≠ ("claim") ∧ k ≠ ("premises") ∧ k ≠ ("emotions"))
    (h1 : (lookupField fields ("claim")).bind asString = some c)
    (h2 : (lookupField fields ("premises")).bind asPremises = some ps)
    (h3 : (lookupField fields ("emotions")).bind parseEmotions = some es) :
    zodParse (Json.obj ((k, v) :: fields)) =
      some { claim := c, premises := ps, emotions := es } ∧
    zodParse (Json.obj fields) =
      some { claim := c, premises := ps, emotions := es } := by
  constructor
  · apply zodParse_eq_some
    · rw [lookupField_cons_ne k ("claim") v fields hk.1]
      exact h1
    · rw [lookupField_cons_ne k ("premises") v fields hk.2.1]
      exact h2
    · rw [lookupField_cons_ne k ("emotions") v fields hk.2.2]
      exact h3
  · exact zodParse_eq_some fields c ps es h1 h2 h3

/-- Witness for C10 at a concrete extra top-level property. -/
theorem c10_extra_top_level_witness :
    zodParse (Json.obj ((("model"), Json.str ("gpt-4o")) ::
      [(("claim"), Json.str ("c")), (("premises"), Json.arr []),
       (("emotions"), Json.obj [(("Anger"), Json.num 1), (("Sadness"), Json.num 1),
         (("Joy"), Json.num 1), (("Fear"), Json.num 1), (("Surprise"), Json.num 1)])])) =
      some { claim := ("c"), premises := [],
             emotions := { Anger := 1, Sadness := 1, Joy := 1, Fear := 1,
                           Surprise := 1 } } ∧
    zodParse (Json.obj [(("claim"), Json.str ("c")), (("premises"), Json.arr []),
      (("emotions"), Json.obj [(("Anger"), Json.num 1), (("Sadness"), Json.num 1),
        (("Joy"), Json.num 1), (("Fear"), Json.num 1), (("Surprise"), Json.num 1)])]) =
      some { claim := ("c"), premises := [],
             emotions := { Anger := 1, Sadness := 1, Joy := 1, Fear := 1,
                           Surprise := 1 } } :=
  c10_extra_top_level _ ("model") (Json.str ("gpt-4o")) ("c") [] _
    ⟨by decide, by decide, by decide⟩ rfl rfl rfl

end ArgAnalyzer

